import Mathlib

/-!
# Verification of the fraim-action scan-gating scripts

Shallow embedding of the repository's Python sources:

* `src/sarif_to_comment.py` — SARIF parsing, PR-comment rendering, annotations;
* `src/github_utils.py`     — status-check creation;
* `src/workflows.py`        — approver resolution, approval checking, gating;
* `src/fraim.py`            — the `main` entry point, modelled as `pymain`.

Python dictionaries read with `.get(key, default)` are modelled by `Option`
fields (`none` = key absent) combined with `Option.getD`/`Option.bind`;
Python truthiness of strings/ints ("" and 0 are falsy) is made explicit at
each use site.  Host (GitHub API) behaviour and process environment are
passed in explicitly as `Host` and `Env` records.  Exceptions are modelled
with `Except PyError`.
-/

namespace FraimAction

/-! ## Python string helpers -/

/-- Python `str.lower()` (ASCII case folding suffices for the level strings). -/
def pyLower (s : String) : String := String.mk (s.data.map Char.toLower)

/-- Helper for `pyTitle`: uppercase a letter that follows a non-letter,
lowercase a letter that follows a letter. -/
def pyTitleAux : Bool → List Char → List Char
  | _, [] => []
  | prevAlpha, c :: cs =>
    (if c.isAlpha then (if prevAlpha then c.toLower else c.toUpper) else c)
      :: pyTitleAux c.isAlpha cs

/-- Python `str.title()` as used on severity level words. -/
def pyTitle (s : String) : String := String.mk (pyTitleAux false s.data)

/-- Python `needle in haystack` substring test, on code-point sequences:
the needle is a prefix of some suffix of the haystack. -/
def strContains (haystack needle : String) : Bool :=
  (List.range (haystack.data.length + 1)).any fun i =>
    needle.data.isPrefixOf (haystack.data.drop i)

/-- Python `s or d` for an optional string `s` (`None` and `""` are falsy). -/
def pyOrStr (s : Option String) (d : String) : String :=
  if s.getD "" = "" then d else s.getD ""

/-- Python f-string rendering of an optional string (`None` prints as `"None"`). -/
def pyStr : Option String → String
  | none => "None"
  | some s => s

/-- Python `"\n".join(lines)`. -/
def joinLines : List String → String
  | [] => ""
  | [l] => l
  | l :: ls => l ++ "\n" ++ joinLines ls

/-! ## SARIF data model (`sarif_to_comment.py`)

Each structure mirrors one nested JSON dictionary consumed by the script;
an `Option` field records whether the corresponding key is present. -/

structure ArtifactLocation where
  uri : Option String
deriving DecidableEq

structure Region where
  startLine : Option Int
  endLine : Option Int
  startColumn : Option Int
  endColumn : Option Int
deriving DecidableEq

structure PhysicalLocation where
  artifactLocation : Option ArtifactLocation
  region : Option Region
deriving DecidableEq

structure SarifLocation where
  physicalLocation : Option PhysicalLocation
deriving DecidableEq

structure SarifMessage where
  text : Option String
deriving DecidableEq

structure RuleHelp where
  text : Option String
deriving DecidableEq

structure SarifRule where
  name : Option String
  help : Option RuleHelp
deriving DecidableEq

structure Driver where
  name : Option String
  version : Option String
  rules : List SarifRule
deriving DecidableEq

structure SarifTool where
  driver : Option Driver
deriving DecidableEq

structure ResultData where
  message : Option SarifMessage
  level : Option String
  ruleName : Option String
  locations : List SarifLocation
deriving DecidableEq

structure SarifRun where
  tool : Option SarifTool
  results : List ResultData
deriving DecidableEq

structure SarifData where
  runs : List SarifRun
deriving DecidableEq

/-- Python `SarifResult.__init__`: a result entry plus its resolved rule data
(`rule_data or {}` is modelled as `Option SarifRule`). -/
structure SarifResult where
  result_data : ResultData
  rule_data : Option SarifRule
deriving DecidableEq

/-- Python `SarifResult.message`: `result_data.get('message', {}).get('text', 'No message available')`. -/
def SarifResult.message (r : SarifResult) : String :=
  ((r.result_data.message).bind SarifMessage.text).getD "No message available"

/-- Python `SarifResult.level`: `result_data.get('level', 'warning')` — the default
applies only when the key is absent. -/
def SarifResult.level (r : SarifResult) : String :=
  r.result_data.level.getD "warning"

/-- Python `SarifResult.primary_location`: `locations[0] if locations else None`. -/
def SarifResult.primary_location (r : SarifResult) : Option SarifLocation :=
  r.result_data.locations.head?

/-- Python `SarifResult.file_path`: chained `.get` through
`physicalLocation.artifactLocation.uri`. -/
def SarifResult.file_path (r : SarifResult) : Option String :=
  (r.primary_location.bind SarifLocation.physicalLocation).bind
    (fun pl => pl.artifactLocation.bind ArtifactLocation.uri)

/-- Python `SarifResult.start_line`: chained `.get` through `physicalLocation.region.startLine`. -/
def SarifResult.start_line (r : SarifResult) : Option Int :=
  (r.primary_location.bind SarifLocation.physicalLocation).bind
    (fun pl => pl.region.bind Region.startLine)

/-- Python `SarifResult.end_line`: `region.get('endLine', self.start_line)`. -/
def SarifResult.end_line (r : SarifResult) : Option Int :=
  match (r.primary_location.bind SarifLocation.physicalLocation).bind
      (fun pl => pl.region.bind Region.endLine) with
  | some v => some v
  | none => r.start_line

/-- Python `SarifResult.start_column`: chained `.get` through `physicalLocation.region.startColumn`. -/
def SarifResult.start_column (r : SarifResult) : Option Int :=
  (r.primary_location.bind SarifLocation.physicalLocation).bind
    (fun pl => pl.region.bind Region.startColumn)

/-- Python `SarifResult.end_column`: `region.get('endColumn', self.start_column)`. -/
def SarifResult.end_column (r : SarifResult) : Option Int :=
  match (r.primary_location.bind SarifLocation.physicalLocation).bind
      (fun pl => pl.region.bind Region.endColumn) with
  | some v => some v
  | none => r.start_column

/-- Python `SarifResult.help_text`: `rule_data.get('help', {}).get('text', '')`. -/
def SarifResult.help_text (r : SarifResult) : String :=
  ((r.rule_data.bind SarifRule.help).bind RuleHelp.text).getD ""

/-- Python `SarifResult.rule_name`: `rule_data.get('name', 'unknown-rule')`. -/
def SarifResult.rule_name (r : SarifResult) : String :=
  (r.rule_data.bind SarifRule.name).getD "unknown-rule"

/-- Python `SarifResult.severity_emoji`: the emoji map with default `'⚠️'`. -/
def SarifResult.severity_emoji (r : SarifResult) : String :=
  let l := pyLower r.level
  if l = "error" then "🚨"
  else if l = "warning" then "⚠️"
  else if l = "note" then "ℹ️"
  else if l = "info" then "ℹ️"
  else "⚠️"

/-! ## SARIF parser (`SarifParser`) -/

/-- The per-run rule table `rules_map` (a Python dict built in list order, so a
later rule with the same truthy name overwrites an earlier one) queried at
`rules_map.get(name)`. -/
def runRulesLookup (run : SarifRun) (name : String) : Option SarifRule :=
  let rules := ((run.tool.bind SarifTool.driver).map Driver.rules).getD []
  (rules.filter fun rl => rl.name.getD "" ≠ "" ∧ rl.name = some name).getLast?

/-- Python `SarifParser.get_results`: all results of all runs, each paired with the
rule data found in its own run's table (`None` when the result has no truthy
`ruleName` or the name is not in the table). -/
def get_results (doc : SarifData) : List SarifResult :=
  doc.runs.flatMap fun run =>
    run.results.map fun rd =>
      let rn := rd.ruleName.getD ""
      ⟨rd, if rn = "" then none else runRulesLookup run rn⟩

/-- Python `SarifParser.get_tool_info`: first run's tool name/version, with the
`Unknown` sentinels as defaults. -/
def get_tool_info (doc : SarifData) : String × String :=
  match doc.runs.head? with
  | none => ("Unknown Tool", "Unknown Version")
  | some run =>
    let driver := run.tool.bind SarifTool.driver
    ((driver.bind Driver.name).getD "Unknown Tool",
     (driver.bind Driver.version).getD "Unknown Version")

/-! ## Annotations (`SarifToCommentProcessor.create_annotations`) -/

/-- Python `_map_level_to_annotation`: the level map with default `'notice'`. -/
def mapLevelToAnnot (level : String) : String :=
  let l := pyLower level
  if l = "error" then "error"
  else if l = "warning" then "warning"
  else if l = "note" then "notice"
  else if l = "info" then "notice"
  else "notice"

/-- Python `col = result.start_column or 1` (Python `or`: `None` and `0` are falsy). -/
def annotationCol (r : SarifResult) : Int :=
  if (SarifResult.start_column r).getD 0 = 0 then 1 else (SarifResult.start_column r).getD 0

/-- One iteration of the `create_annotations` loop: skip when `file_path` or
`start_line` is falsy, otherwise format the GitHub Actions annotation line. -/
def annotationFor (r : SarifResult) : Option String :=
  if (SarifResult.file_path r).getD "" = "" ∨ (SarifResult.start_line r).getD 0 = 0 then
    none
  else
    some ("::" ++ mapLevelToAnnot (SarifResult.level r)
      ++ " file=" ++ (SarifResult.file_path r).getD ""
      ++ ",line=" ++ toString ((SarifResult.start_line r).getD 0)
      ++ ",col=" ++ toString (annotationCol r)
      ++ "::" ++ SarifResult.rule_name r ++ ": " ++ SarifResult.message r)

/-- Python `create_annotations`: the annotation lines printed for a document (the
early return on `not results` coincides with the empty list). -/
def create_annotations (doc : SarifData) : List String :=
  (get_results doc).filterMap annotationFor

/-! ## Comment body (`SarifToCommentProcessor._build_comment_body`) -/

/-- Line 281: `[r for r in results if r.level.lower() == 'error']`. -/
def severityErrors (results : List SarifResult) : List SarifResult :=
  results.filter fun r => pyLower (SarifResult.level r) = "error"

/-- Line 282: `[r for r in results if r.level.lower() == 'warning']`. -/
def severityWarnings (results : List SarifResult) : List SarifResult :=
  results.filter fun r => pyLower (SarifResult.level r) = "warning"

/-- Line 283: `[r for r in results if r.level.lower() in ['note', 'info']]`. -/
def severityNotes (results : List SarifResult) : List SarifResult :=
  results.filter fun r =>
    pyLower (SarifResult.level r) = "note" ∨ pyLower (SarifResult.level r) = "info"

/-- Insert a result into the insertion-ordered `files_with_issues` dict. -/
def groupInsert (key : String) (r : SarifResult) :
    List (String × List SarifResult) → List (String × List SarifResult)
  | [] => [(key, [r])]
  | (k, rs) :: rest =>
    if k = key then (k, rs ++ [r]) :: rest else (k, rs) :: groupInsert key r rest

/-- The `files_with_issues` dict: keys in first-occurrence order, each holding
its results in document order; the key is `result.file_path or "Unknown file"`. -/
def filesWithIssues (results : List SarifResult) : List (String × List SarifResult) :=
  results.foldl (fun acc r => groupInsert (pyOrStr (SarifResult.file_path r) "Unknown file") r acc) []

/-- Insert into a key-sorted association list (models Python `sorted`; the
keys of `files_with_issues` are distinct). -/
def insertByKey (x : String × List SarifResult) :
    List (String × List SarifResult) → List (String × List SarifResult)
  | [] => [x]
  | y :: ys => if x.1 < y.1 then x :: y :: ys else y :: insertByKey x ys

/-- Python `sorted(files_with_issues.items())`. -/
def sortFiles (l : List (String × List SarifResult)) : List (String × List SarifResult) :=
  l.foldr insertByKey []

/-- The per-file block of the "Files with Issues" section (lines 316-327). -/
def fileSectionLines (fp : String) (frs : List SarifResult) : List String :=
  ("**" ++ fp ++ "** (" ++ toString frs.length ++ " issue"
      ++ (if frs.length ≠ 1 then "s" else "") ++ ")")
    :: (frs.flatMap fun r =>
        let lineInfo := if (SarifResult.start_line r).getD 0 = 0 then "Unknown location"
          else "Line " ++ toString ((SarifResult.start_line r).getD 0)
        ["- " ++ SarifResult.severity_emoji r ++ " **" ++ SarifResult.rule_name r
            ++ "** (" ++ lineInfo ++ ")",
         "  " ++ SarifResult.message r]
        ++ (if SarifResult.help_text r ≠ "" then ["  💡 " ++ SarifResult.help_text r] else []))
    ++ [""]

/-- One entry of the "Detailed Findings" section (lines 333-355), numbered from 1. -/
def detailedLines (i : Nat) (r : SarifResult) : List String :=
  ["#### " ++ toString (i + 1) ++ ". " ++ SarifResult.severity_emoji r ++ " "
      ++ SarifResult.rule_name r,
   "",
   "**File:** `" ++ pyOrStr (SarifResult.file_path r) "Unknown" ++ "`"]
  ++ (if (SarifResult.start_line r).getD 0 = 0 then []
      else if (SarifResult.end_line r).getD 0 ≠ 0 ∧ SarifResult.end_line r ≠ SarifResult.start_line r then
        ["**Lines:** " ++ toString ((SarifResult.start_line r).getD 0) ++ "-"
            ++ toString ((SarifResult.end_line r).getD 0)]
      else
        ["**Line:** " ++ toString ((SarifResult.start_line r).getD 0)])
  ++ ["**Severity:** " ++ pyTitle (SarifResult.level r),
      "**Rule Name:** `" ++ SarifResult.rule_name r ++ "`",
      "",
      "**Description:** " ++ SarifResult.message r]
  ++ (if SarifResult.help_text r ≠ "" then ["", "**Help:** " ++ SarifResult.help_text r] else [])
  ++ ["", "---", ""]

/-- Everything of the comment body after its first line (`lines[1:]`). -/
def commentRest (doc : SarifData) (results : List SarifResult) : List String :=
  ""
    :: ("**Tool:** " ++ (get_tool_info doc).1 ++ " " ++ (get_tool_info doc).2)
    :: ("**Total Findings:** " ++ toString results.length)
    :: ((if (severityErrors results).isEmpty then []
          else ["🚨 **Errors:** " ++ toString (severityErrors results).length])
      ++ (if (severityWarnings results).isEmpty then []
          else ["⚠️ **Warnings:** " ++ toString (severityWarnings results).length])
      ++ (if (severityNotes results).isEmpty then []
          else ["ℹ️ **Notes:** " ++ toString (severityNotes results).length])
      ++ [""]
      ++ (if results.isEmpty then ["✅ No security issues found!"]
          else
            ["### 📁 Files with Issues", ""]
            ++ (sortFiles (filesWithIssues results)).flatMap (fun p => fileSectionLines p.1 p.2)
            ++ ["### 🔍 Detailed Findings", ""]
            ++ (results.enum.flatMap fun p => detailedLines p.1 p.2)))

/-- The full list `lines` built by `_build_comment_body`. -/
def commentLines (title : String) (doc : SarifData) (results : List SarifResult) : List String :=
  ("## " ++ title) :: commentRest doc results

/-- Python `_build_comment_body`: `"\n".join(lines)`. -/
def build_comment_body (title : String) (doc : SarifData) (results : List SarifResult) : String :=
  joinLines (commentLines title doc results)

/-! ## Comment posting (`SarifToCommentProcessor.create_pr_comment`) -/

/-- The comment-identity check (line 216):
`comment.body.startswith(f"## {self.title}")`. -/
def commentIsOurs (title body : String) : Bool :=
  ("## " ++ title).data.isPrefixOf body.data

/-- Edit the first comment recognized as ours (the loop breaks at the first
match), replacing its body. -/
def editFirstOurs (title newBody : String) : List String → List String
  | [] => []
  | c :: cs => if commentIsOurs title c then newBody :: cs else c :: editFirstOurs title newBody cs

/-- The comment body `create_pr_comment` would post: `none` when the early
return on `not results` fires and nothing is built or posted. -/
def create_pr_comment_body (title : String) (doc : SarifData) : Option String :=
  let results := get_results doc
  if results.isEmpty then none
  else some (build_comment_body title doc results)

/-- The effect of `create_pr_comment` on the PR's comment list (happy path of
the host client): early return when there are no results; otherwise edit the
first comment recognized as ours, or create a new one. -/
def create_pr_comment (title : String) (doc : SarifData) (comments : List String) : List String :=
  let results := get_results doc
  if results.isEmpty then comments
  else
    let body := build_comment_body title doc results
    if comments.any (fun c => commentIsOurs title c) then editFirstOurs title body comments
    else comments ++ [body]

/-! ## Environment and host model (`github_utils.py`, `workflows.py`, `fraim.py`)

`Env` collects the process environment variables and the externally supplied
scan result; `Host` collects the behaviour of the GitHub API collaborator.
Exceptions are modelled with `PyError`. -/

/-- Python exceptions that the scripts can raise. -/
inductive PyError where
  /-- Python `TypeError` (wrong number of call arguments). -/
  | typeError
  /-- Python `ValueError` (`get_github_client` with no token). -/
  | valueError
  /-- Python `NameError` (`get_github_context` returning an unbound `pr_number`). -/
  | nameError
  /-- Python `json.JSONDecodeError` re-raised by `parse_workflow_args`. -/
  | jsonError
  /-- The `Exception` raised and re-raised when the scan exits non-zero. -/
  | scanException
deriving DecidableEq

/-- One PR review as consumed by `check_approver_approval`. -/
structure Review where
  state : String
  login : String
deriving DecidableEq

/-- Outcome of `org.get_team_by_slug(team)` at the host. -/
inductive TeamLookup where
  /-- The team exists. -/
  | found
  /-- Python `GithubException` with status 404. -/
  | notFound404
  /-- Python `GithubException` with another status. -/
  | apiError
  /-- Any other exception. -/
  | otherError
deriving DecidableEq

/-- Behaviour of the GitHub API collaborator for one invocation. -/
structure Host where
  /-- Python `get_repo`/`get_pull` succeed. -/
  getRepoOk : Bool
  /-- Python `pr.get_reviews()` result; `none` models a raised exception. -/
  reviews : Option (List Review)
  /-- Python `get_organization(org).get_team_by_slug(team)` outcome. -/
  teamLookup : String → String → TeamLookup
  /-- Python `team.get_members()` logins; `none` models a raised exception. -/
  teamMembers : String → Option (List String)
  /-- Issue-comment bodies returned by `pr.get_issue_comments()`;
  `none` models a raised exception (including `get_pull` on a bad number). -/
  commentsFetch : Option (List String)

/-- The `GITHUB_EVENT_PATH` file as read by `get_github_context`. -/
inductive EventFile where
  /-- The file cannot be read or parsed (the `except` branch logs and leaves
  `pr_number` unbound). -/
  | unreadable
  /-- Parsed JSON; the payload's `pull_request.number`, if any. -/
  | parsed (prNumber : Option Int)
deriving DecidableEq

/-- The `WORKFLOW_ARGS` fields consumed by the scripts (each `.get` key). -/
structure Args where
  shouldBlockPullRequest : Option Bool
  confidence : Option String
  temperature : Option String
  approver : Option String
deriving DecidableEq

/-- Process environment and external scan result for one invocation. -/
structure Env where
  githubEventName : String
  githubBaseSha : String
  githubSha : String
  githubRepository : String
  inputWorkflow : String
  inputModel : String
  /-- Python `GH_TOKEN`/`GITHUB_TOKEN` present (`get_github_client` raises otherwise). -/
  tokenAvailable : Bool
  /-- Python `get_repo`/`get_commit`/`create_status` succeed in `create_status_check`. -/
  statusApiOk : Bool
  /-- Parsed `WORKFLOW_ARGS`; `none` models invalid JSON. -/
  workflowArgs : Option Args
  /-- The `GITHUB_EVENT_PATH` file; `none` models an unset path / missing file. -/
  eventFile : Option EventFile
  /-- Exit code of the external `uv run fraim run ...` process. -/
  scanExitCode : Nat
  /-- Combined stdout+stderr captured from the scan process. -/
  scanOutput : String

/-- A commit status actually created on the host. -/
structure StatusCheck where
  state : String
  description : String
  context : String
deriving DecidableEq

/-- Python `github_utils.create_status_check`: returns the created status, or `none`
when nothing is created (no token — the raised `ValueError` is caught by the
function's own `except` — missing repository or `GITHUB_SHA`, or an API
failure, all logged and swallowed). -/
def create_status_check (env : Env) (state description repo context : String) :
    Option StatusCheck :=
  if env.tokenAvailable = false then none
  else if repo = "" ∨ env.githubSha = "" then none
  else if env.statusApiOk = false then none
  else some ⟨state, description, context⟩

/-! ## Approver resolution and approval checking (`workflows.py`) -/

/-- The team-name normalization used by `is_team_approver`,
`check_approver_approval` and `handle_pull_request_review`:
`approver.lstrip('@')`, then the last `/`-separated segment if a `/` occurs. -/
def normalizeTeamName (approver : String) : String :=
  let t := String.mk (approver.data.dropWhile (· = '@'))
  if strContains t "/" then ((t.splitOn "/").getLastD t) else t

/-- Python `repository.split('/')[0]`. -/
def orgOf (repo : String) : String := (repo.splitOn "/").headD ""

/-- Python `is_team_approver`: `True` only on a successful team lookup; falsy inputs,
404s, other API errors and any exception (including the no-token `ValueError`,
raised inside the `try`) all yield `False`. -/
def is_team_approver (env : Env) (host : Host) (approver : Option String) (repo : String) :
    Bool :=
  if approver.getD "" = "" ∨ repo = "" then false
  else if env.tokenAvailable = false then false
  else
    match host.teamLookup (orgOf repo) (normalizeTeamName (approver.getD "")) with
    | .found => true
    | _ => false

/-- Python `get_team_members`: the member logins, or `[]` on any failure (no token,
team lookup failure, or `get_members` raising). -/
def get_team_members (env : Env) (host : Host) (repo team : String) : List String :=
  if env.tokenAvailable = false then []
  else
    match host.teamLookup (orgOf repo) team with
    | .found => (host.teamMembers team).getD []
    | _ => []

/-- Python `check_approver_approval`: falsy inputs return `False` immediately;
`get_github_client()` at line 266 sits outside the `try` block, so with no
token the `ValueError` propagates (the `if not github_client` guard below it
is unreachable, as the client is constructed by raising, never `None`);
failures inside the `try` block are caught and yield `False`. -/
def check_approver_approval (env : Env) (host : Host) (approver : Option String)
    (repo : String) (pr_number : Option Int) : Except PyError Bool :=
  if approver.getD "" = "" then .ok false
  else if repo = "" then .ok false
  else if pr_number.getD 0 = 0 then .ok false
  else if env.tokenAvailable = false then .error .valueError
  else if host.getRepoOk = false then .ok false
  else if is_team_approver env host approver repo then
    let members := get_team_members env host repo (normalizeTeamName (approver.getD ""))
    if members.isEmpty then .ok false
    else
      match host.reviews with
      | none => .ok false
      | some rs => .ok (rs.any fun r => r.state == "APPROVED" && members.contains r.login)
  else
    match host.reviews with
    | none => .ok false
    | some rs => .ok (rs.any fun r => r.state == "APPROVED" && r.login == approver.getD "")

/-- Python `check_security_risk_comment`: `get_github_client()` at line 441 is again
outside the `try`, so a missing token raises; otherwise any comment containing
the marker phrase counts, and fetch failures yield `False`. -/
def check_security_risk_comment (env : Env) (host : Host) (repo : String)
    (_pr_number : Option Int) : Except PyError Bool :=
  if env.githubSha = "" ∨ repo = "" then .ok false
  else if env.tokenAvailable = false then .error .valueError
  else
    match host.commentsFetch with
    | none => .ok false
    | some cs => .ok (cs.any fun c => strContains c "Security Risk Review Required")

/-- Python `check_output_for_risk_findings`: the literal marker string test on the
captured scan output. -/
def check_output_for_risk_findings (output_content : String) : Bool :=
  strContains output_content "The following security risks have been identified and require review"

/-! ## Gate handlers (`workflows.py`) -/

/-- Python `handle_pull_request_review`: on a `pull_request_review` event, evaluate
approval when a security-risk comment exists, emit the corresponding status
check and `sys.exit(0)`; a no-op on other events.  The result pairs the
statuses actually created with `some exitCode` when `sys.exit` was called. -/
def handle_pull_request_review (env : Env) (host : Host) (args : Args) (workflow : String)
    (should_block_pr : Option Bool) (repo : String) (pr_number : Option Int) :
    Except PyError (List StatusCheck × Option Nat) :=
  if env.githubEventName = "pull_request_review" then
    if should_block_pr = some true ∧ workflow = "risk_flagger" then
      match check_security_risk_comment env host repo pr_number with
      | .error e => .error e
      | .ok riskComment =>
        if riskComment then
          if args.approver.getD "" ≠ "" then
            match check_approver_approval env host args.approver repo pr_number with
            | .error e => .error e
            | .ok approved =>
              if approved then
                .ok ((create_status_check env "success"
                  ("Security review completed. PR approved by " ++ pyStr args.approver ++ ".")
                  repo ("fraim/" ++ workflow)).toList, some 0)
              else
                .ok ((create_status_check env "failure"
                  ("Security risks detected! Waiting for approval from " ++ pyStr args.approver ++ ".")
                  repo ("fraim/" ++ workflow)).toList, some 0)
          else
            .ok ((create_status_check env "failure"
              "Security risks detected! Waiting for approval from [not specified]."
              repo ("fraim/" ++ workflow)).toList, some 0)
        else
          .ok ([], some 0)
    else
      .ok ([], some 0)
  else
    .ok ([], none)

/-- Python `handle_pull_request_block` — the function as declared at
`workflows.py:373`, with all six parameters.  On a `pull_request` event with
blocking enabled for the `risk_flagger` workflow: findings present trigger an
approval check and a success/failure status; no findings means no status
("No security risks found, allowing PR to proceed"). -/
def handle_pull_request_block (env : Env) (host : Host) (args : Args) (workflow : String)
    (should_block_pr : Option Bool) (security_findings_found : Bool) (repo : String)
    (pr_number : Option Int) : Except PyError (List StatusCheck) :=
  if env.githubEventName = "pull_request" then
    if should_block_pr = some true ∧ workflow = "risk_flagger" then
      if security_findings_found then
        let approver := args.approver
        match check_approver_approval env host approver repo pr_number with
        | .error e => .error e
        | .ok is_approved =>
          if is_approved then
            .ok (create_status_check env "success"
              ("Security review completed. PR approved by " ++ pyStr approver ++ ".")
              repo ("fraim/" ++ workflow)).toList
          else
            .ok (create_status_check env "failure"
              ("Security risks detected! Waiting for approval from "
                ++ pyOrStr approver "[not specified]" ++ ".")
              repo ("fraim/" ++ workflow)).toList
      else
        .ok []
    else
      .ok []
  else
    .ok []

/-- Number of parameters `handle_pull_request_block` declares
(`workflows.py:373`), none of which has a default. -/
def handle_pull_request_block_paramCount : Nat := 6

/-- Number of positional arguments supplied at the call site `fraim.py:217`:
`(args, workflow, should_block_pr, security_findings_found, github_repository)`. -/
def mainGateCallArgCount : Nat := 5

/-! ## Global arguments (`add_global_args`) -/

/-- The error message built at `workflows.py:82` when a SHA is missing. -/
def shaErrorMsg (env : Env) : String :=
  "Missing base or head SHA for PR diff scanning. GITHUB_BASE_SHA: "
    ++ env.githubBaseSha ++ ", GITHUB_SHA: " ++ env.githubSha

/-- Python `add_global_args`: builds the global CLI arguments; on a `pull_request`
event with a missing base or head SHA it attempts an error status check and
calls `sys.exit(1)` — modelled by `.error` carrying the status attempt. -/
def add_global_args (env : Env) (workflow : String) (args : Args) (repo : String) :
    Except (Option StatusCheck) (List String) :=
  let ga := if workflow = "code" ∨ workflow = "iac" then ["--output", "fraim_outputs"] else []
  let ga := ga ++ (if args.confidence.getD "" ≠ "" then ["--confidence", args.confidence.getD ""] else [])
  let ga := ga ++ (if args.temperature.getD "" ≠ "" then ["--temperature", args.temperature.getD ""] else [])
  let ga := ga ++ (if env.inputModel ≠ "" then ["--model", env.inputModel] else [])
  let ga := ga ++ ["--location", "./"]
  if env.githubEventName = "pull_request" then
    if env.githubBaseSha = "" ∨ env.githubSha = "" then
      .error (create_status_check env "error" (shaErrorMsg env) repo ("fraim/" ++ workflow))
    else
      .ok (ga ++ ["--diff", "--base", env.githubBaseSha, "--head", env.githubSha])
  else
    .ok ga

/-! ## The `main` entry point (`fraim.py`) -/

/-- Python `get_github_context`: the repository from the environment and the PR
number from the event payload; when the event file is missing or unparseable,
`pr_number` is never assigned and the `return` raises `NameError`. -/
def get_github_context (env : Env) : Except PyError (String × Option Int) :=
  match env.eventFile with
  | some (.parsed n) => .ok (env.githubRepository, n)
  | _ => .error .nameError

/-- Python `results_count` as computed at `fraim.py:230`:
`sum(len(run.get('results', [])) for run in data.get('runs', []))`. -/
def results_count (doc : SarifData) : Nat :=
  (doc.runs.map (fun run => run.results.length)).foldl (· + ·) 0

/-- Python `findings_detected` as computed at `fraim.py:243`:
`results_count > 0 or security_findings_found`. -/
def findings_detected (resultsCount : Nat) (security_findings_found : Bool) : Bool :=
  decide (resultsCount > 0) || security_findings_found

/-- The process outcome of one `main` invocation. -/
inductive Outcome where
  /-- Python `sys.exit(code)`. -/
  | exited (code : Nat)
  /-- An uncaught exception (the process exits non-zero). -/
  | raised (e : PyError)
  /-- Python `main` returned normally. -/
  | finished
deriving DecidableEq

/-- The five positional arguments evaluated at the gate call site
(`fraim.py:217`). -/
structure GateCall where
  args : Args
  workflow : String
  should_block_pr : Option Bool
  security_findings_found : Bool
  repo : String
deriving DecidableEq

/-- The observable trace of one `main` invocation: status checks actually
created (in order), whether the external scan was run, the argument record of
the gate call when reached, and the process outcome. -/
structure MainTrace where
  statuses : List StatusCheck
  scanRan : Bool
  gateCall : Option GateCall
  outcome : Outcome
deriving DecidableEq

/-- Python `fraim.main`, modelled as the sequence of decision-relevant steps:
parse `WORKFLOW_ARGS`, read the GitHub context, require a workflow name,
run `handle_pull_request_review` (which exits on review events), build the
global arguments (which exits on missing SHAs), run the scan, and evaluate
`check_output_for_risk_findings`.  The subsequent call
`handle_pull_request_block(args, workflow, should_block_pr,
security_findings_found, github_repository)` supplies
`mainGateCallArgCount = 5` positional arguments to a function declaring
`handle_pull_request_block_paramCount = 6` parameters without defaults, so
Python raises `TypeError` there; everything after `fraim.py:217` (SARIF
output handling included) is unreachable. -/
def pymain (env : Env) (host : Host) : MainTrace :=
  match env.workflowArgs with
  | none => ⟨[], false, none, .raised .jsonError⟩
  | some args =>
    match get_github_context env with
    | .error e => ⟨[], false, none, .raised e⟩
    | .ok (repo, pr_number) =>
      if env.inputWorkflow = "" then ⟨[], false, none, .exited 1⟩
      else
        match handle_pull_request_review env host args env.inputWorkflow
            args.shouldBlockPullRequest repo pr_number with
        | .error e => ⟨[], false, none, .raised e⟩
        | .ok (sts, some code) => ⟨sts, false, none, .exited code⟩
        | .ok (sts, none) =>
          match add_global_args env env.inputWorkflow args repo with
          | .error stAttempt => ⟨sts ++ stAttempt.toList, false, none, .exited 1⟩
          | .ok _globalArgs =>
            if env.scanExitCode ≠ 0 then
              ⟨sts, true, none, .raised .scanException⟩
            else
              ⟨sts, true,
               some ⟨args, env.inputWorkflow, args.shouldBlockPullRequest,
                 check_output_for_risk_findings env.scanOutput, repo⟩,
               .raised .typeError⟩

/-! ## Concrete fixtures used by witnesses and counterexamples -/

/-- A benign host: repository reachable, no reviews, no teams, no comments. -/
def hostIdle : Host :=
  { getRepoOk := true
    reviews := some []
    teamLookup := fun _ _ => .notFound404
    teamMembers := fun _ => none
    commentsFetch := some [] }

/-- A host whose PR has one `APPROVED` review by `alice`. -/
def hostW : Host :=
  { getRepoOk := true
    reviews := some [⟨"APPROVED", "alice"⟩]
    teamLookup := fun _ _ => .notFound404
    teamMembers := fun _ => none
    commentsFetch := some [] }

/-- Workflow args enabling blocking with approver `alice`. -/
def argsB : Args := ⟨some true, none, none, some "alice"⟩

/-- A location in `app.py` at the given start line/column (both keys present
only when `some`). -/
def locAt (line col : Option Int) : SarifLocation :=
  ⟨some ⟨some ⟨some "app.py"⟩, some ⟨line, none, col, none⟩⟩⟩

/-- A result entry at the given start line/column. -/
def rdAt (line col : Option Int) : ResultData :=
  ⟨some ⟨some "SQL injection risk"⟩, some "error", some "sql-injection", [locAt line col]⟩

/-- A finding whose region has `startLine: 0`. -/
def rLineZero : SarifResult := ⟨rdAt (some 0) (some 3), none⟩

/-- A finding with a positive line and `startColumn: 0`. -/
def rColZero : SarifResult := ⟨rdAt (some 5) (some 0), none⟩

/-- A finding with a positive line and no `startColumn` key. -/
def rColNone : SarifResult := ⟨rdAt (some 5) none, none⟩

/-- A result entry carrying the unrecognized level `"critical"`. -/
def rdCritical : ResultData := ⟨some ⟨some "Something bad"⟩, some "critical", none, []⟩

/-- A finding with the unrecognized level `"critical"`. -/
def rCritical : SarifResult := ⟨rdCritical, none⟩

/-- A result entry with no `level` key. -/
def rdNoLevel : ResultData := ⟨none, none, none, []⟩

/-- A SARIF document with zero runs. -/
def docNoRuns : SarifData := ⟨[]⟩

/-- A SARIF document with one run and zero results. -/
def docEmptyRun : SarifData := ⟨[⟨none, []⟩]⟩

/-- The `sql-injection` rule with help text. -/
def helpRule : SarifRule := ⟨some "sql-injection", some ⟨some "Use parameterized queries"⟩⟩

/-- A one-run, one-result SARIF document (an `error` in `app.py` line 10). -/
def docOne : SarifData :=
  ⟨[⟨some ⟨some ⟨some "Fraim", some "1.0.0", [helpRule]⟩⟩, [rdAt (some 10) (some 1)]⟩]⟩

/-- Scenario-B environment: `pull_request` event, blocking enabled for
`risk_flagger`, SHAs present, token present, scan exit 0, captured output
without the risk-marker string. -/
def envC1 : Env :=
  { githubEventName := "pull_request"
    githubBaseSha := "base123"
    githubSha := "head456"
    githubRepository := "octo/repo"
    inputWorkflow := "risk_flagger"
    inputModel := ""
    tokenAvailable := true
    statusApiOk := true
    workflowArgs := some argsB
    eventFile := some (.parsed (some 7))
    scanExitCode := 0
    scanOutput := "Scan completed with no issues" }

/-- The gate-call argument record produced by `pymain envC1 hostIdle`. -/
def gcC1 : GateCall := ⟨argsB, "risk_flagger", some true, false, "octo/repo"⟩

/-- Variant of `envC1` with the GitHub token absent. -/
def envNoTok : Env :=
  { envC1 with tokenAvailable := false }

/-- Variant of `envC1` with the head SHA (`GITHUB_SHA`) missing, `code` workflow. -/
def envC9 : Env :=
  { envC1 with githubSha := "", inputWorkflow := "code" }

/-- Variant of `envC1` with the base SHA missing but the head SHA present, `code` workflow. -/
def envC9b : Env :=
  { envC1 with githubBaseSha := "", inputWorkflow := "code" }

/-! ## Helper lemmas -/

/-- The handler `handle_pull_request_review` is a no-op (no statuses, no exit) on any
event other than `pull_request_review`. -/
theorem handle_pull_request_review_other (env : Env) (host : Host) (args : Args)
    (workflow : String) (should_block_pr : Option Bool) (repo : String)
    (pr_number : Option Int) (h : env.githubEventName ≠ "pull_request_review") :
    handle_pull_request_review env host args workflow should_block_pr repo pr_number
      = .ok ([], none) := by
  unfold handle_pull_request_review
  rw [if_neg h]

/-- Editing a comment in place preserves the number of comments. -/
theorem editFirstOurs_length (t b : String) (l : List String) :
    (editFirstOurs t b l).length = l.length := by
  induction l with
  | nil => rfl
  | cons c cs ih =>
    unfold editFirstOurs
    split
    · rfl
    · simp [ih]

/-- Every body built by `_build_comment_body` begins with `"## " + title`,
so it is recognized by the comment-identity check. -/
theorem commentIsOurs_build (title : String) (doc : SarifData) (results : List SarifResult) :
    commentIsOurs title (build_comment_body title doc results) = true := by
  have hb : build_comment_body title doc results
      = ("## " ++ title) ++ "\n" ++ joinLines (commentRest doc results) := rfl
  rw [commentIsOurs, hb]
  rw [show (("## " ++ title) ++ "\n" ++ joinLines (commentRest doc results)).data
      = ("## " ++ title).data ++ ("\n" ++ joinLines (commentRest doc results)).data from by
    simp [String.data_append]]
  simp [ List.isPrefixOf_iff_prefix]

/-- A document in which every run has an empty `results` array parses to an
empty finding list. -/
theorem get_results_nil (doc : SarifData) (h : ∀ run ∈ doc.runs, run.results = []) :
    get_results doc = [] := by
  unfold get_results
  rw [List.flatMap_eq_nil_iff]
  intro run hr
  rw [h run hr]
  rfl

/-! ## Claim theorems -/

/-- C10: zero-valued location fields are treated as absent at the annotation
interface: a finding whose primary region has `startLine = 0` is skipped by
`create_annotations` (its `annotationFor` is `none`, exactly as if it had no
line), and for a finding whose `startColumn` is `0` or absent the rendered
`col` value is `1`. -/
theorem c10_thm (r : SarifResult) :
    (SarifResult.start_line r = some 0 → annotationFor r = none) ∧
    ((SarifResult.start_column r = none ∨ SarifResult.start_column r = some 0) →
      annotationCol r = 1) := by
  constructor
  · intro h
    unfold annotationFor
    rw [if_pos]
    right
    rw [h]
    rfl
  · intro h
    rcases h with h | h <;> simp [annotationCol, h]

/-- C10 witness: concrete findings with `startLine = 0`, `startColumn = 0`
and absent `startColumn`. -/
theorem c10_witness :
    annotationFor rLineZero = none ∧ annotationCol rColZero = 1 ∧ annotationCol rColNone = 1 :=
  ⟨(c10_thm rLineZero).1 (by decide),
   (c10_thm rColZero).2 (Or.inr (by decide)),
   (c10_thm rColNone).2 (Or.inl (by decide))⟩

/-- C8 counterexample: the unrecognized level value `"critical"` does not
default to `warning`: the parsed `level` stays `"critical"` (the field is not
confined to the four-value enum), the annotation mapping sends it to
`"notice"` while a warning maps to `"warning"`, and the finding lands in none
of the error/warning/note severity buckets of the comment body, whereas a
warning would be in the warning bucket. -/
theorem c8_counterexample :
    SarifResult.level rCritical = "critical" ∧
    mapLevelToAnnot (SarifResult.level rCritical) = "notice" ∧
    mapLevelToAnnot "warning" = "warning" ∧
    severityErrors [rCritical] = [] ∧
    severityWarnings [rCritical] = [] ∧
    severityNotes [rCritical] = [] := by
  refine ⟨rfl, by decide, by decide, by decide, by decide, by decide⟩

/-- C8 amended: the `warning` default applies only when the `level` key is
absent; a present but unrecognized level value is passed through verbatim —
it renders with the warning emoji, but maps to the `notice` annotation level
and is excluded from all per-severity counts of the comment body. -/
theorem c8_amended :
    (∀ rd : ResultData, ∀ ro : Option SarifRule, rd.level = none →
      SarifResult.level ⟨rd, ro⟩ = "warning") ∧
    (∀ r : SarifResult,
      pyLower (SarifResult.level r) ∉ (["error", "warning", "note", "info"] : List String) →
      SarifResult.severity_emoji r = "⚠️" ∧
      mapLevelToAnnot (SarifResult.level r) = "notice" ∧
      severityErrors [r] = [] ∧
      severityWarnings [r] = [] ∧
      severityNotes [r] = []) := by
  constructor
  · intro rd ro h
    simp [SarifResult.level, h]
  · intro r h
    simp only [List.mem_cons, List.mem_singleton, not_or] at h
    obtain ⟨h1, h2, h3, h4, _⟩ := h
    refine ⟨?_, ?_, ?_, ?_, ?_⟩
    · simp [SarifResult.severity_emoji, h1, h2, h3, h4]
    · simp [mapLevelToAnnot, h1, h2, h3, h4]
    · simp [severityErrors, List.filter_cons, h1]
    · simp [severityWarnings, List.filter_cons, h2]
    · simp [severityNotes, List.filter_cons, h3, h4]

/-- C8 witness: the absent-level default and the `"critical"` pass-through at
concrete inputs. -/
theorem c8_witness :
    SarifResult.level ⟨rdNoLevel, none⟩ = "warning" ∧
    (SarifResult.severity_emoji rCritical = "⚠️" ∧
      mapLevelToAnnot (SarifResult.level rCritical) = "notice" ∧
      severityErrors [rCritical] = [] ∧
      severityWarnings [rCritical] = [] ∧
      severityNotes [rCritical] = []) :=
  ⟨c8_amended.1 rdNoLevel none (by decide), c8_amended.2 rCritical (by decide)⟩

/-- C4 counterexample: on a results document with zero runs, `create_pr_comment`
short-circuits and produces no comment body at all (`none`, host comment list
unchanged) — it does not produce the fixed no-issues body, even though that
text does occur in the (unreachable) body `_build_comment_body` would build
for an empty finding list. -/
theorem c4_counterexample :
    create_pr_comment_body "Security Findings" docNoRuns = none ∧
    create_pr_comment "Security Findings" docNoRuns [] = [] ∧
    strContains (build_comment_body "Security Findings" docNoRuns [])
      "✅ No security issues found!" = true := by
  refine ⟨rfl, rfl, by decide⟩

/-- C4 amended: for every results document with zero runs or zero results,
`create_pr_comment` returns without building or posting any comment (the host
comment list is left unchanged), and `create_annotations` emits an empty
annotation sequence. -/
theorem c4_amended (title : String) (doc : SarifData)
    (h : ∀ run ∈ doc.runs, run.results = []) :
    create_pr_comment_body title doc = none ∧
    create_annotations doc = [] ∧
    (∀ comments : List String, create_pr_comment title doc comments = comments) := by
  have hg : get_results doc = [] := get_results_nil doc h
  refine ⟨?_, ?_, ?_⟩
  · simp [create_pr_comment_body, hg]
  · simp [create_annotations, hg]
  · intro comments
    simp [create_pr_comment, hg]

/-- C4 witness: a one-run document with zero results. -/
theorem c4_witness :
    create_pr_comment_body "Security Findings" docEmptyRun = none ∧
    create_annotations docEmptyRun = [] ∧
    create_pr_comment "Security Findings" docEmptyRun ["hello"] = ["hello"] :=
  ⟨(c4_amended "Security Findings" docEmptyRun (by decide)).1,
   (c4_amended "Security Findings" docEmptyRun (by decide)).2.1,
   (c4_amended "Security Findings" docEmptyRun (by decide)).2.2 ["hello"]⟩

/-- C7: `check_approver_approval` does return `false` on each missing input,
but it is not raise-free: with all inputs present and no GitHub token
available, `get_github_client()` at `workflows.py:266` — outside the `try`
block — raises `ValueError`, which propagates to the caller (the
`if not github_client: return False` guard below it is unreachable, showing
the intended fail-closed behaviour the code misses). -/
theorem c7_thm :
    check_approver_approval envNoTok hostIdle (some "alice") "octo/repo" (some 7)
      = .error .valueError ∧
    check_approver_approval envNoTok hostIdle none "octo/repo" (some 7) = .ok false ∧
    check_approver_approval envNoTok hostIdle (some "") "octo/repo" (some 7) = .ok false ∧
    check_approver_approval envNoTok hostIdle (some "alice") "" (some 7) = .ok false ∧
    check_approver_approval envNoTok hostIdle (some "alice") "octo/repo" none = .ok false :=
  ⟨rfl, rfl, rfl, rfl, rfl⟩

/-- C5: the comment-identity check recognizes a comment as ours exactly when
its body begins with `"## "` followed by the title; when such a comment
already exists, `create_pr_comment` edits it in place (the comment count is
unchanged), and two invocations with identical findings starting from an
empty comment list leave exactly one comment. -/
theorem c5_thm (title : String) (doc : SarifData) (comments : List String)
    (h : (get_results doc).isEmpty = false) :
    (∀ body : String,
      commentIsOurs title body = true ↔ ("## " ++ title).data <+: body.data) ∧
    (comments.any (fun c => commentIsOurs title c) = true →
      (create_pr_comment title doc comments).length = comments.length) ∧
    (create_pr_comment title doc (create_pr_comment title doc [])).length = 1 := by
  refine ⟨?_, ?_, ?_⟩
  · intro body
    simp [commentIsOurs, List.isPrefixOf_iff_prefix]
  · intro hany
    simp only [create_pr_comment, h, Bool.false_eq_true, if_false, hany, if_true]
    exact editFirstOurs_length _ _ _
  · have h1 : create_pr_comment title doc []
        = [build_comment_body title doc (get_results doc)] := by
      simp [create_pr_comment, h]
    rw [h1]
    simp [create_pr_comment, h, editFirstOurs, commentIsOurs_build]

/-- C5 witness: two invocations on `docOne` from an empty comment list leave
one comment, and an existing ours-comment is edited, not duplicated. -/
theorem c5_witness :
    (create_pr_comment "Security Findings" docOne
      (create_pr_comment "Security Findings" docOne [])).length = 1 ∧
    (create_pr_comment "Security Findings" docOne ["## Security Findings old"]).length
      = ["## Security Findings old"].length :=
  ⟨(c5_thm "Security Findings" docOne [] (by decide)).2.2,
   (c5_thm "Security Findings" docOne ["## Security Findings old"] (by decide)).2.1
     (by decide)⟩

/-- C6: for an individual (non-group) approver, with the required inputs
present, the token available and the host reachable, `check_approver_approval`
returns `true` exactly when some review has state `APPROVED` and an author
login equal (case-sensitively) to the approver string. -/
theorem c6_thm (env : Env) (host : Host) (approver repo : String)
    (pr_number : Option Int) (rs : List Review)
    (hap : approver ≠ "")
    (hrepo : repo ≠ "")
    (hpr : pr_number.getD 0 ≠ 0)
    (htok : env.tokenAvailable = true)
    (hrok : host.getRepoOk = true)
    (hind : is_team_approver env host (some approver) repo = false)
    (hrev : host.reviews = some rs) :
    check_approver_approval env host (some approver) repo pr_number = .ok true ↔
      ∃ r ∈ rs, r.state = "APPROVED" ∧ r.login = approver := by
  unfold check_approver_approval
  simp [hap, hrepo, hpr, htok, hrok, hind, hrev, List.any_eq_true, and_assoc]

/-- C6 witness: `alice` has an `APPROVED` review, so the check succeeds at a
concrete environment and host. -/
theorem c6_witness :
    check_approver_approval envC1 hostW (some "alice") "octo/repo" (some 7) = .ok true :=
  (c6_thm envC1 hostW "alice" "octo/repo" (some 7) [⟨"APPROVED", "alice"⟩]
      (by decide) (by decide) (by decide) rfl rfl (by decide) rfl).mpr
    ⟨⟨"APPROVED", "alice"⟩, by decide⟩

/-- C1 counterexample: in the Scenario-B environment with a non-empty results
document, `results_count` is positive, so `findings_detected` — the OR of the
marker test and a non-empty document, computed at `fraim.py:242-243` only
after the gate call — is `true`; yet the findings flag actually supplied to
the gate at `fraim.py:217` is the marker test alone and is `false`.  A
non-empty results document alone does not make the gate input true. -/
theorem c1_counterexample :
    (pymain envC1 hostIdle).gateCall = some gcC1 ∧
    gcC1.security_findings_found = false ∧
    results_count docOne = 1 ∧
    findings_detected (results_count docOne)
      (check_output_for_risk_findings envC1.scanOutput) = true ∧
    check_output_for_risk_findings envC1.scanOutput = false := by
  refine ⟨by decide, by decide, by decide, by decide, by decide⟩

/-- C1 amended: whenever `main` reaches the gate call, the findings flag it
supplies is exactly `check_output_for_risk_findings` applied to the captured
scan output — the marker test alone; the OR with the parsed results document
(`findings_detected`) is computed only after the gate call and is used only
for logging. -/
theorem c1_amended (env : Env) (host : Host) (gc : GateCall)
    (hgc : (pymain env host).gateCall = some gc) :
    gc.security_findings_found = check_output_for_risk_findings env.scanOutput := by
  unfold pymain at hgc
  repeat' split at hgc
  all_goals simp at hgc
  subst hgc
  rfl

/-- C1 witness for the amended claim: the gate call of the Scenario-B
environment carries the marker-test value. -/
theorem c1_witness :
    gcC1.security_findings_found = check_output_for_risk_findings envC1.scanOutput :=
  c1_amended envC1 hostIdle gcC1 (by decide)

/-- C2: on every `pull_request`-event invocation whose scan runs and exits 0,
`main` reaches the gate call at `fraim.py:217`, which supplies
`mainGateCallArgCount = 5` positional arguments to
`handle_pull_request_block`, whose signature declares
`handle_pull_request_block_paramCount = 6` parameters with no defaults — so
the invocation ends in an uncaught `TypeError` with no status check emitted;
the Passed/Blocked status-emitting branches never execute from `main`. -/
theorem c2_thm (env : Env) (host : Host)
    (hev : env.githubEventName = "pull_request")
    (hexit : env.scanExitCode = 0)
    (hran : (pymain env host).scanRan = true) :
    (pymain env host).outcome = .raised .typeError ∧
    (pymain env host).statuses = [] ∧
    mainGateCallArgCount ≠ handle_pull_request_block_paramCount := by
  have hne : env.githubEventName ≠ "pull_request_review" := by
    rw [hev]; decide
  refine ⟨?_, ?_, by decide⟩ <;>
  · unfold pymain at hran ⊢
    repeat' split at hran
    all_goals simp_all [handle_pull_request_review_other, hne]

/-- C2 witness: the Scenario-B environment reaches the gate call. -/
theorem c2_witness :
    (pymain envC1 hostIdle).outcome = .raised .typeError ∧
    (pymain envC1 hostIdle).statuses = [] ∧
    mainGateCallArgCount ≠ handle_pull_request_block_paramCount :=
  c2_thm envC1 hostIdle rfl rfl (by decide)

/-- C3: in the Scenario-B environment (`pull_request` event, blocking enabled,
scan exit 0, no marker in the output, empty results document) the gate never
transitions to Passed: the invocation dies with the `TypeError` of the
five-argument gate call.  No status check is emitted (vacuously matching that
half of the claim), and the six-parameter `handle_pull_request_block` itself,
had it been called correctly, would indeed have taken the silent Passed
branch (`.ok []`). -/
theorem c3_thm :
    (pymain envC1 hostIdle).outcome = .raised .typeError ∧
    (pymain envC1 hostIdle).statuses = [] ∧
    (pymain envC1 hostIdle).scanRan = true ∧
    results_count docNoRuns = 0 ∧
    handle_pull_request_block envC1 hostIdle argsB "risk_flagger" (some true) false
      "octo/repo" (some 7) = .ok [] := by
  refine ⟨by decide, by decide, by decide, by decide, rfl⟩

/-- C9 counterexample: on a `pull_request` event with the head SHA
(`GITHUB_SHA`) missing, the invocation does exit 1 before any scan, but no
error-state status check is emitted: `create_status_check` requires
`GITHUB_SHA` to locate the commit and returns after a log line, so the
attempted status check is silently dropped. -/
theorem c9_counterexample :
    (pymain envC9 hostIdle).outcome = .exited 1 ∧
    (pymain envC9 hostIdle).scanRan = false ∧
    (pymain envC9 hostIdle).statuses = [] := by
  refine ⟨by decide, by decide, by decide⟩

/-- C9 amended: on a `pull_request` event with the base or head revision
identifier missing, the invocation exits 1 before running the scan and
*attempts* an error-state status check; the check is actually created only
when `create_status_check` succeeds (token, repository, head SHA present and
API call succeeding) — in particular, a missing head SHA means no status
check is emitted at all. -/
theorem c9_amended (env : Env) (host : Host) (args : Args) (prn : Option Int)
    (hargs : env.workflowArgs = some args)
    (hfile : env.eventFile = some (.parsed prn))
    (hev : env.githubEventName = "pull_request")
    (hwf : env.inputWorkflow ≠ "")
    (hsha : env.githubBaseSha = "" ∨ env.githubSha = "") :
    pymain env host
      = ⟨(create_status_check env "error" (shaErrorMsg env) env.githubRepository
          ("fraim/" ++ env.inputWorkflow)).toList, false, none, .exited 1⟩ ∧
    (env.githubSha = "" → (pymain env host).statuses = []) := by
  have hne : env.githubEventName ≠ "pull_request_review" := by
    rw [hev]; decide
  have hctx : get_github_context env = .ok (env.githubRepository, prn) := by
    unfold get_github_context; rw [hfile]
  have hga : add_global_args env env.inputWorkflow args env.githubRepository
      = .error (create_status_check env "error" (shaErrorMsg env)
          env.githubRepository ("fraim/" ++ env.inputWorkflow)) := by
    unfold add_global_args
    simp only [hev, eq_self_iff_true, if_true]
    rw [if_pos hsha]
  have hmain : pymain env host
      = ⟨(create_status_check env "error" (shaErrorMsg env) env.githubRepository
          ("fraim/" ++ env.inputWorkflow)).toList, false, none, .exited 1⟩ := by
    unfold pymain
    simp only [hargs, hctx]
    rw [if_neg hwf]
    rw [handle_pull_request_review_other env host args env.inputWorkflow
        args.shouldBlockPullRequest env.githubRepository prn hne]
    simp only [hga]
    simp
  refine ⟨hmain, fun hs => ?_⟩
  rw [hmain]
  show (create_status_check env "error" (shaErrorMsg env) env.githubRepository
      ("fraim/" ++ env.inputWorkflow)).toList = []
  unfold create_status_check
  rw [hs]
  split
  · rfl
  · rw [if_pos (Or.inr rfl)]
    rfl

/-- C9 witness for the amended claim: base SHA missing but head SHA present —
the invocation exits 1 before the scan and this time the error status check
is actually created. -/
theorem c9_witness :
    pymain envC9b hostIdle
      = ⟨[⟨"error", shaErrorMsg envC9b, "fraim/code"⟩], false, none, .exited 1⟩ :=
  ((c9_amended envC9b hostIdle argsB (some 7) rfl rfl rfl (by decide)
      (Or.inl rfl)).1).trans (by decide)

end FraimAction
